import Mathlib

/-!
Verification of the PhysioPlus repetition-counting core.

Shallow embedding of:
* `physiocore/lib/timer_utils.py` — `AdaptiveHoldTimer`;
* `physiocore/lib/landmark_smoother.py` — `LandmarkSmoother`;
* the per-exercise `PoseTracker` state machines of `bridging.py`,
  `cobra_stretch.py`, `ankle_toe_movement.py`, `shoulder_blade_squeeze.py`,
  `any_prone_straight_leg_raise.py`, `any_straight_leg_raise.py` and
  `sbs2.py`.

Python floats (wall-clock seconds, angles, normalized coordinates) are
modelled as exact rationals; `time.time()` becomes an explicit `now`
argument supplied at each call.
-/

/-- Modelled from the spec: `basic_math.between` is imported by every tracker
but `lib/basic_math.py` is not among the available sources.  Spec §4.3 rule 4:
"Angle-range membership test is inclusive on both bounds: `min <= value <= max`". -/
def between (lo x hi : ℚ) : Bool :=
  decide (lo ≤ x ∧ x ≤ hi)

/-! ### AdaptiveHoldTimer (`lib/timer_utils.py`) -/

/-- The dictionary returned by `AdaptiveHoldTimer.update`. -/
structure UpdateResult where
  newly_counted_rep : Bool
  status_text : Option String
  needs_reset : Bool

/-- State of `AdaptiveHoldTimer`.  `hold_start_time` is `None` (`none`)
outside a hold, exactly as in `__init__` / the reset branch of `update`. -/
structure AdaptiveHoldTimer where
  initial_hold_secs : ℚ
  adaptive_hold_secs : ℚ
  rep_in_progress : Bool
  hold_start_time : Option ℚ
  rep_counted_this_hold : Bool

/-- `AdaptiveHoldTimer.__init__(initial_hold_secs)`. -/
def AdaptiveHoldTimer.init (initial_hold_secs : ℚ) : AdaptiveHoldTimer :=
  { initial_hold_secs := initial_hold_secs
    adaptive_hold_secs := initial_hold_secs
    rep_in_progress := false
    hold_start_time := none
    rep_counted_this_hold := false }

/-- Round a rational to the nearest integer, ties to even — the rounding used
by Python's fixed-point string formatting. -/
def roundHalfEven (x : ℚ) : ℤ :=
  let f := ⌊x⌋
  let r := x - (f : ℚ)
  if r < 1 / 2 then f
  else if 1 / 2 < r then f + 1
  else if f % 2 = 0 then f else f + 1

/-- `f'{q:.2f}'` for the nonnegative values the source formats
(`remaining_time > 0` guards the only use). -/
def fmt2 (q : ℚ) : String :=
  let n := (roundHalfEven (q * 100)).toNat
  let frac := n % 100
  let fracStr := if frac < 10 then "0" ++ toString frac else toString frac
  toString (n / 100) ++ "." ++ fracStr

/-- `AdaptiveHoldTimer.update(in_hold_pose)`; `now` is the value `time.time()`
returns during this call.  The source reads `self.hold_start_time` only when
`self.rep_in_progress` is true, in which case it is `some` of the start time;
`getD 0` stands in for that always-successful read. -/
def AdaptiveHoldTimer.update (s : AdaptiveHoldTimer) (in_hold_pose : Bool) (now : ℚ) :
    AdaptiveHoldTimer × UpdateResult :=
  if in_hold_pose then
    if s.rep_in_progress = false then
      ({ s with rep_in_progress := true
                hold_start_time := some now
                rep_counted_this_hold := false },
       { newly_counted_rep := false, status_text := none, needs_reset := false })
    else
      let hold_duration := now - s.hold_start_time.getD 0
      let remaining_time := s.adaptive_hold_secs - hold_duration
      let status_text : Option String :=
        if 0 < remaining_time then some ("hold pose: " ++ fmt2 remaining_time) else none
      if s.adaptive_hold_secs ≤ hold_duration ∧ s.rep_counted_this_hold = false then
        ({ s with rep_counted_this_hold := true },
         { newly_counted_rep := true, status_text := status_text, needs_reset := false })
      else
        (s, { newly_counted_rep := false, status_text := status_text, needs_reset := false })
  else
    if s.rep_in_progress then
      let actual_hold_time := now - s.hold_start_time.getD 0
      let adaptive2 :=
        if s.adaptive_hold_secs ≤ actual_hold_time then
          s.adaptive_hold_secs + (actual_hold_time - s.adaptive_hold_secs) * (1 / 2)
        else if s.initial_hold_secs ≤ actual_hold_time then
          actual_hold_time
        else
          s.adaptive_hold_secs
      ({ s with adaptive_hold_secs := adaptive2
                rep_in_progress := false
                hold_start_time := none
                rep_counted_this_hold := false },
       { newly_counted_rep := false, status_text := none, needs_reset := true })
    else
      (s, { newly_counted_rep := false, status_text := none, needs_reset := false })

/-- Run a sequence of `update` calls; each element is `(in_hold_pose, now)`. -/
def runTimer (s : AdaptiveHoldTimer) : List (Bool × ℚ) → AdaptiveHoldTimer
  | [] => s
  | p :: rest => runTimer (s.update p.1 p.2).1 rest

/-- Feed `update true` at each listed time, keeping only the state. -/
def feedTrue (s : AdaptiveHoldTimer) : List ℚ → AdaptiveHoldTimer
  | [] => s
  | t :: ts => feedTrue (s.update true t).1 ts

/-- Number of `newly_counted_rep = true` results over a run of `update true`
calls at the listed times. -/
def countTrueRun (s : AdaptiveHoldTimer) : List ℚ → Nat
  | [] => 0
  | t :: ts =>
    (if (s.update true t).2.newly_counted_rep then 1 else 0) +
      countTrueRun (s.update true t).1 ts

/-! ### LandmarkSmoother (`lib/landmark_smoother.py`) -/

/-- A `NormalizedLandmark` protobuf message: x, y, z and a visibility score. -/
structure Landmark where
  x : ℚ
  y : ℚ
  z : ℚ
  visibility : ℚ

/-- The body of the smoothing loop: the source constructs
`landmark_pb2.NormalizedLandmark(x=new_x, y=new_y, z=new_z)` — the
`visibility` field is not passed, so it keeps the protobuf default `0`. -/
def smoothLandmark (alpha : ℚ) (nw prev : Landmark) : Landmark :=
  { x := alpha * nw.x + (1 - alpha) * prev.x
    y := alpha * nw.y + (1 - alpha) * prev.y
    z := alpha * nw.z + (1 - alpha) * prev.z
    visibility := 0 }

/-- `LandmarkSmoother` state: the smoothing factor and the retained
`smoothed_landmarks` list (`None` until the first non-`None` input). -/
structure LandmarkSmoother where
  alpha : ℚ
  smoothed_landmarks : Option (List Landmark)

/-- `LandmarkSmoother.__init__(alpha)`. -/
def LandmarkSmoother.init (alpha : ℚ) : LandmarkSmoother :=
  { alpha := alpha, smoothed_landmarks := none }

/-- `LandmarkSmoother.__call__(landmarks)`, returning the new state and the
returned landmark list.  The source loop indexes `self.smoothed_landmarks`
at every index of the input (the two lists always have the pose model's
fixed landmark count); `List.zipWith` computes the same list on that domain. -/
def LandmarkSmoother.call (s : LandmarkSmoother) (landmarks : Option (List Landmark)) :
    LandmarkSmoother × Option (List Landmark) :=
  match landmarks with
  | none => (s, none)
  | some l =>
    match s.smoothed_landmarks with
    | none => ({ s with smoothed_landmarks := some l }, some l)
    | some prev =>
      let out := List.zipWith (smoothLandmark s.alpha) l prev
      ({ s with smoothed_landmarks := some out }, some out)

/-! ### PoseTracker state machines -/

/-- One call in a tracker trace: an `updateTracker` with its per-frame
arguments, or a `resetTracker`. -/
inductive TrackStep (α : Type) where
  | upd (a : α)
  | reset

/-- Run a trace of update/reset calls through a tracker given its update
function `u` and reset function `r`. -/
def runTrack {σ α : Type} (u : σ → α → σ) (r : σ → σ) (s : σ) : List (TrackStep α) → σ
  | [] => s
  | TrackStep.upd a :: rest => runTrack u r (u s a) rest
  | TrackStep.reset :: rest => runTrack u r (r s) rest

/-! #### bridging.py (module constants at their in-file defaults:
knee 40..90, rest 100..130, raise 155..180) -/

/-- Per-frame inputs of `bridging.PoseTracker.updateTracker`. -/
structure BridgingArgs where
  lying_down : Bool
  l_knee_angle : ℚ
  r_knee_angle : ℚ
  l_ankle_close : Bool
  r_ankle_close : Bool
  l_raise_angle : ℚ
  r_raise_angle : ℚ

/-- The baseline-pose conjunction assigned to `self.resting_pose` while it is
still false (including the `lenient_mode` prefix). -/
def bridgingRestCond (lenient_mode : Bool) (a : BridgingArgs) : Bool :=
  let lenient := if lenient_mode then true else
    (a.l_ankle_close && a.r_ankle_close && between 40 a.r_knee_angle 90 &&
      between 40 a.l_knee_angle 90 && between 100 a.l_raise_angle 130 &&
      between 100 a.r_raise_angle 130)
  lenient && a.lying_down && (a.l_ankle_close || a.r_ankle_close) &&
    (between 40 a.r_knee_angle 90 || between 40 a.l_knee_angle 90) &&
    (between 100 a.l_raise_angle 130 || between 100 a.r_raise_angle 130)

/-- The raise-pose condition evaluated while `self.resting_pose` is true. -/
def bridgingRaiseCond (lenient_mode : Bool) (a : BridgingArgs) : Bool :=
  let lenient := if lenient_mode then true else
    (between 155 a.l_raise_angle 180 && between 155 a.r_raise_angle 180 &&
      between 40 a.r_knee_angle 90 && between 40 a.l_knee_angle 90)
  lenient && (between 155 a.l_raise_angle 180 || between 155 a.r_raise_angle 180) &&
    (between 40 a.r_knee_angle 90 || between 40 a.l_knee_angle 90)

/-- `bridging.PoseTracker` flags. -/
structure BridgingTracker where
  resting_pose : Bool
  raise_pose : Bool

/-- `bridging.PoseTracker.__init__`. -/
def BridgingTracker.init : BridgingTracker :=
  { resting_pose := false, raise_pose := false }

/-- `bridging.PoseTracker.updateTracker`: the rest branch runs only while
`resting_pose` is false; the raise branch reads the just-updated flag. -/
def BridgingTracker.updateTracker (lenient_mode : Bool) (s : BridgingTracker)
    (a : BridgingArgs) : BridgingTracker :=
  let s1 := if s.resting_pose = false then
      { s with resting_pose := bridgingRestCond lenient_mode a, raise_pose := false }
    else s
  if s1.resting_pose then { s1 with raise_pose := bridgingRaiseCond lenient_mode a } else s1

/-- `bridging.PoseTracker.resetTracker`. -/
def BridgingTracker.resetTracker (_s : BridgingTracker) : BridgingTracker :=
  { resting_pose := false, raise_pose := false }

/-! #### cobra_stretch.py -/

/-- Per-frame inputs of `cobra_stretch.PoseTracker.updateTracker`. -/
structure CobraArgs where
  angle_left_elb : ℚ
  angle_right_elb : ℚ
  raise_angle : ℚ
  wrist_close : Bool
  wrist_near_torse : Bool
  head_angle : ℚ
  lower_body_prone : Bool

/-- The baseline (resting) conjunction of `cobra_stretch`. -/
def cobraRestCond (lenient_mode : Bool) (a : CobraArgs) : Bool :=
  let lenient := if lenient_mode then true else
    (a.wrist_close && a.wrist_near_torse && decide (a.head_angle < 100))
  lenient && a.lower_body_prone &&
    (decide (a.angle_left_elb < 60) || decide (a.angle_right_elb < 60)) &&
    decide (a.raise_angle > 165)

/-- The raise (stretch) conjunction of `cobra_stretch`. -/
def cobraRaiseCond (lenient_mode : Bool) (a : CobraArgs) : Bool :=
  let lenient := if lenient_mode then true else
    (a.wrist_close && decide (a.head_angle > 125))
  lenient && a.lower_body_prone &&
    (decide (a.angle_left_elb > 120) || decide (a.angle_right_elb > 120)) &&
    decide (a.raise_angle < 150)

/-- `cobra_stretch.PoseTracker` flags. -/
structure CobraTracker where
  resting_pose : Bool
  raise_pose : Bool

/-- `cobra_stretch.PoseTracker.__init__`. -/
def CobraTracker.init : CobraTracker :=
  { resting_pose := false, raise_pose := false }

/-- `cobra_stretch.PoseTracker.updateTracker`. -/
def CobraTracker.updateTracker (lenient_mode : Bool) (s : CobraTracker)
    (a : CobraArgs) : CobraTracker :=
  let s1 := if s.resting_pose = false then
      { s with resting_pose := cobraRestCond lenient_mode a, raise_pose := false }
    else s
  if s1.resting_pose then { s1 with raise_pose := cobraRaiseCond lenient_mode a } else s1

/-- `cobra_stretch.PoseTracker.resetTracker`. -/
def CobraTracker.resetTracker (_s : CobraTracker) : CobraTracker :=
  { resting_pose := false, raise_pose := false }

/-! #### ankle_toe_movement.py (defaults: relax 80..110, stretch 140..180) -/

/-- Per-frame inputs of `ankle_toe_movement.PoseTracker.updateTracker`. -/
structure AnkleToeArgs where
  lower_body_grounded : Bool
  l_ankle_stretch_angle : ℚ
  r_ankle_stretch_angle : ℚ

/-- The relax (baseline) conjunction of `ankle_toe_movement`. -/
def ankleToeRelaxCond (a : AnkleToeArgs) : Bool :=
  a.lower_body_grounded && between 80 a.l_ankle_stretch_angle 110 &&
    between 80 a.r_ankle_stretch_angle 110

/-- The stretch condition of `ankle_toe_movement` (lenient: either ankle;
strict: both ankles). -/
def ankleToeStretchCond (lenient_mode : Bool) (a : AnkleToeArgs) : Bool :=
  let ls := between 140 a.l_ankle_stretch_angle 180
  let rs := between 140 a.r_ankle_stretch_angle 180
  let stretched := if lenient_mode then ls || rs else ls && rs
  a.lower_body_grounded && stretched

/-- `ankle_toe_movement.PoseTracker` flags. -/
structure AnkleToeTracker where
  relax_pose : Bool
  stretch_pose : Bool

/-- `ankle_toe_movement.PoseTracker.__init__`. -/
def AnkleToeTracker.init : AnkleToeTracker :=
  { relax_pose := false, stretch_pose := false }

/-- `ankle_toe_movement.PoseTracker.updateTracker`. -/
def AnkleToeTracker.updateTracker (lenient_mode : Bool) (s : AnkleToeTracker)
    (a : AnkleToeArgs) : AnkleToeTracker :=
  let s1 := if s.relax_pose = false then
      { s with relax_pose := ankleToeRelaxCond a, stretch_pose := false }
    else s
  if s1.relax_pose then { s1 with stretch_pose := ankleToeStretchCond lenient_mode a } else s1

/-- `ankle_toe_movement.PoseTracker.resetTracker`. -/
def AnkleToeTracker.resetTracker (_s : AnkleToeTracker) : AnkleToeTracker :=
  { relax_pose := false, stretch_pose := false }

/-! #### shoulder_blade_squeeze.py -/

/-- `shoulder_blade_squeeze.PoseTracker` state (thresholds are read from the
config at construction; `lenient_mode` is stored but unused by `update`). -/
structure SqueezeTracker where
  resting_pose : Bool
  squeeze_pose : Bool
  rest_threshold : ℚ
  squeeze_threshold : ℚ

/-- `shoulder_blade_squeeze.PoseTracker.__init__`. -/
def SqueezeTracker.init (rest_threshold squeeze_threshold : ℚ) : SqueezeTracker :=
  { resting_pose := false, squeeze_pose := false
    rest_threshold := rest_threshold, squeeze_threshold := squeeze_threshold }

/-- `shoulder_blade_squeeze.PoseTracker.update(shoulder_hip_ratio)`. -/
def SqueezeTracker.update (s : SqueezeTracker) (shoulder_hip_ratio : ℚ) : SqueezeTracker :=
  let is_resting := decide (shoulder_hip_ratio > s.rest_threshold)
  let is_squeezing := decide (shoulder_hip_ratio < s.squeeze_threshold)
  if s.resting_pose = false then
    { s with resting_pose := if is_resting then true else s.resting_pose
             squeeze_pose := false }
  else
    { s with squeeze_pose := is_squeezing }

/-- `shoulder_blade_squeeze.PoseTracker.reset`. -/
def SqueezeTracker.reset (s : SqueezeTracker) : SqueezeTracker :=
  { s with resting_pose := false, squeeze_pose := false }

/-! #### any_prone_straight_leg_raise.py (defaults: knee 150..180,
rest raise 160..180, raise 100..140) -/

/-- Per-frame inputs of `any_prone_straight_leg_raise.PoseTracker.updateTracker`. -/
structure ProneSLRArgs where
  prone_lying_down : Bool
  l_knee_angle : ℚ
  r_knee_angle : ℚ
  l_ankle_close : Bool
  r_ankle_close : Bool
  l_raise_angle : ℚ
  r_raise_angle : ℚ
  lknee_high : Bool
  rknee_high : Bool

/-- Left-leg resting conjunction of `any_prone_straight_leg_raise`. -/
def proneSLRLeftRestCond (lenient_mode : Bool) (a : ProneSLRArgs) : Bool :=
  (if lenient_mode then true else (a.r_ankle_close && between 150 a.r_knee_angle 180)) &&
    a.prone_lying_down && a.l_ankle_close && between 150 a.l_knee_angle 180 &&
    between 160 a.l_raise_angle 180

/-- Right-leg resting conjunction of `any_prone_straight_leg_raise`. -/
def proneSLRRightRestCond (lenient_mode : Bool) (a : ProneSLRArgs) : Bool :=
  (if lenient_mode then true else (a.l_ankle_close && between 150 a.l_knee_angle 180)) &&
    a.prone_lying_down && a.r_ankle_close && between 150 a.r_knee_angle 180 &&
    between 160 a.r_raise_angle 180

/-- Left-leg raise conjunction of `any_prone_straight_leg_raise`. -/
def proneSLRLeftRaiseCond (lenient_mode : Bool) (a : ProneSLRArgs) : Bool :=
  (if lenient_mode then true else (a.r_ankle_close && between 150 a.r_knee_angle 180)) &&
    a.prone_lying_down && a.lknee_high && between 100 a.l_raise_angle 140 &&
    between 150 a.l_knee_angle 180

/-- Right-leg raise conjunction of `any_prone_straight_leg_raise`. -/
def proneSLRRightRaiseCond (lenient_mode : Bool) (a : ProneSLRArgs) : Bool :=
  (if lenient_mode then true else (a.l_ankle_close && between 150 a.l_knee_angle 180)) &&
    a.prone_lying_down && a.rknee_high && between 100 a.r_raise_angle 140 &&
    between 150 a.r_knee_angle 180

/-- `any_prone_straight_leg_raise.PoseTracker` flags (one pair per leg). -/
structure ProneSLRTracker where
  l_resting_pose : Bool
  r_resting_pose : Bool
  l_raise_pose : Bool
  r_raise_pose : Bool

/-- `any_prone_straight_leg_raise.PoseTracker.__init__`. -/
def ProneSLRTracker.init : ProneSLRTracker :=
  { l_resting_pose := false, r_resting_pose := false
    l_raise_pose := false, r_raise_pose := false }

/-- `any_prone_straight_leg_raise.PoseTracker.updateTracker` (the four
branches run in source order, each reading the flags already updated). -/
def ProneSLRTracker.updateTracker (lenient_mode : Bool) (s : ProneSLRTracker)
    (a : ProneSLRArgs) : ProneSLRTracker :=
  let s1 := if s.l_resting_pose = false then
      { s with l_resting_pose := proneSLRLeftRestCond lenient_mode a, l_raise_pose := false }
    else s
  let s2 := if s1.r_resting_pose = false then
      { s1 with r_resting_pose := proneSLRRightRestCond lenient_mode a, r_raise_pose := false }
    else s1
  let s3 := if s2.l_resting_pose then
      { s2 with l_raise_pose := proneSLRLeftRaiseCond lenient_mode a }
    else s2
  if s3.r_resting_pose then
    { s3 with r_raise_pose := proneSLRRightRaiseCond lenient_mode a }
  else s3

/-- `any_prone_straight_leg_raise.PoseTracker.resetTracker` — clears all four
flags (both raise flags, then both resting flags). -/
def ProneSLRTracker.resetTracker (_s : ProneSLRTracker) : ProneSLRTracker :=
  { l_resting_pose := false, r_resting_pose := false
    l_raise_pose := false, r_raise_pose := false }

/-! #### any_straight_leg_raise.py (defaults: knee 155..180,
rest raise 160..180, raise 100..160) -/

/-- Per-frame inputs of `any_straight_leg_raise.PoseTracker.updateTracker`. -/
structure AnySLRArgs where
  lying_down : Bool
  l_knee_angle : ℚ
  r_knee_angle : ℚ
  l_ankle_close : Bool
  r_ankle_close : Bool
  l_raise_angle : ℚ
  r_raise_angle : ℚ
  lknee_high : Bool
  rknee_high : Bool
  side_lying : Bool

/-- Left-leg resting conjunction of `any_straight_leg_raise` (the rest bands
test the absolute value of the raise angle). -/
def anySLRLeftRestCond (lenient_mode : Bool) (a : AnySLRArgs) : Bool :=
  !a.side_lying &&
    (if lenient_mode then true else (a.r_ankle_close && between 155 a.r_knee_angle 180)) &&
    a.lying_down && a.l_ankle_close && between 155 a.l_knee_angle 180 &&
    between 160 (abs a.l_raise_angle) 180

/-- Right-leg resting conjunction of `any_straight_leg_raise`. -/
def anySLRRightRestCond (lenient_mode : Bool) (a : AnySLRArgs) : Bool :=
  !a.side_lying &&
    (if lenient_mode then true else (a.l_ankle_close && between 155 a.l_knee_angle 180)) &&
    a.lying_down && a.r_ankle_close && between 155 a.r_knee_angle 180 &&
    between 160 (abs a.r_raise_angle) 180

/-- Left-leg raise conjunction of `any_straight_leg_raise`. -/
def anySLRLeftRaiseCond (lenient_mode : Bool) (a : AnySLRArgs) : Bool :=
  !a.side_lying &&
    (if lenient_mode then true else (a.r_ankle_close && between 155 a.r_knee_angle 180)) &&
    a.lying_down && a.lknee_high && between 100 a.l_raise_angle 160 &&
    between 155 a.l_knee_angle 180

/-- Right-leg raise conjunction of `any_straight_leg_raise`. -/
def anySLRRightRaiseCond (lenient_mode : Bool) (a : AnySLRArgs) : Bool :=
  !a.side_lying &&
    (if lenient_mode then true else (a.l_ankle_close && between 155 a.l_knee_angle 180)) &&
    a.lying_down && a.rknee_high && between 100 a.r_raise_angle 160 &&
    between 155 a.r_knee_angle 180

/-- `any_straight_leg_raise.PoseTracker` flags (one pair per leg). -/
structure AnySLRTracker where
  l_resting_pose : Bool
  r_resting_pose : Bool
  l_raise_pose : Bool
  r_raise_pose : Bool

/-- `any_straight_leg_raise.PoseTracker.__init__`. -/
def AnySLRTracker.init : AnySLRTracker :=
  { l_resting_pose := false, r_resting_pose := false
    l_raise_pose := false, r_raise_pose := false }

/-- `any_straight_leg_raise.PoseTracker.updateTracker` (four branches in
source order, each reading the flags already updated). -/
def AnySLRTracker.updateTracker (lenient_mode : Bool) (s : AnySLRTracker)
    (a : AnySLRArgs) : AnySLRTracker :=
  let s1 := if s.l_resting_pose = false then
      { s with l_resting_pose := anySLRLeftRestCond lenient_mode a, l_raise_pose := false }
    else s
  let s2 := if s1.r_resting_pose = false then
      { s1 with r_resting_pose := anySLRRightRestCond lenient_mode a, r_raise_pose := false }
    else s1
  let s3 := if s2.l_resting_pose then
      { s2 with l_raise_pose := anySLRLeftRaiseCond lenient_mode a }
    else s2
  if s3.r_resting_pose then
    { s3 with r_raise_pose := anySLRRightRaiseCond lenient_mode a }
  else s3

/-- `any_straight_leg_raise.PoseTracker.resetTracker` — clears all four
flags. -/
def AnySLRTracker.resetTracker (_s : AnySLRTracker) : AnySLRTracker :=
  { l_resting_pose := false, r_resting_pose := false
    l_raise_pose := false, r_raise_pose := false }

/-! #### sbs2.py -/

/-- `sbs2.PoseTracker.is_elbow_squeezed(elbow, shoulder)`: the shoulder's x
coordinate is left of the elbow's. -/
def sbs2ElbowSqueezed (elbow shoulder : ℚ × ℚ) : Bool :=
  decide (shoulder.1 < elbow.1)

/-- `sbs2.PoseTracker.is_elbow_expanded(elbow, shoulder)`. -/
def sbs2ElbowExpanded (elbow shoulder : ℚ × ℚ) : Bool :=
  decide (shoulder.1 > elbow.1)

/-- Per-frame inputs of `sbs2.PoseTracker.updateTracker`: 2-D points
(x, y) for both elbows and shoulders. -/
structure Sbs2Args where
  left_elbow : ℚ × ℚ
  left_shoulder : ℚ × ℚ
  right_elbow : ℚ × ℚ
  right_shoulder : ℚ × ℚ

/-- `sbs2.PoseTracker` flags. -/
structure Sbs2Tracker where
  squeezed : Bool
  expand : Bool

/-- `sbs2.PoseTracker.__init__`. -/
def Sbs2Tracker.init : Sbs2Tracker :=
  { squeezed := false, expand := false }

/-- `sbs2.PoseTracker.updateTracker`: `expand` latches on a both-elbows-rest
frame; `squeezed` latches once both elbows pass while `expand` holds. -/
def Sbs2Tracker.updateTracker (s : Sbs2Tracker) (a : Sbs2Args) : Sbs2Tracker :=
  let left_elbow_pass := sbs2ElbowSqueezed a.left_elbow a.left_shoulder
  let right_elbow_pass := sbs2ElbowSqueezed a.right_elbow a.right_shoulder
  let left_elbow_rest := sbs2ElbowExpanded a.left_elbow a.left_shoulder
  let right_elbow_rest := sbs2ElbowExpanded a.right_elbow a.right_shoulder
  let s1 := if left_elbow_rest && right_elbow_rest then { s with expand := true } else s
  if left_elbow_pass && right_elbow_pass && s1.expand then { s1 with squeezed := true } else s1

/-- `sbs2.PoseTracker.resetTracker`. -/
def Sbs2Tracker.resetTracker (_s : Sbs2Tracker) : Sbs2Tracker :=
  { squeezed := false, expand := false }

/-! ### Helper lemmas for the hold timer -/

theorem update_true_of_counted (s : AdaptiveHoldTimer) (t : ℚ)
    (h1 : s.rep_in_progress = true) (h2 : s.rep_counted_this_hold = true) :
    (s.update true t).1 = s ∧ (s.update true t).2.newly_counted_rep = false := by
  constructor <;> simp [AdaptiveHoldTimer.update, h1, h2]

theorem countTrueRun_eq_zero_of_counted (s : AdaptiveHoldTimer)
    (h1 : s.rep_in_progress = true) (h2 : s.rep_counted_this_hold = true) :
    ∀ ts : List ℚ, countTrueRun s ts = 0 := by
  intro ts
  induction ts generalizing s with
  | nil => simp [countTrueRun]
  | cons t ts ih =>
    obtain ⟨hstate, hnew⟩ := update_true_of_counted s t h1 h2
    simp only [countTrueRun, hstate, hnew]
    simp [ih s h1 h2]

theorem countTrueRun_le_one_of_inprog (s : AdaptiveHoldTimer)
    (h1 : s.rep_in_progress = true) :
    ∀ ts : List ℚ, countTrueRun s ts ≤ 1 := by
  intro ts
  induction ts generalizing s with
  | nil => simp [countTrueRun]
  | cons t ts ih =>
    by_cases hc : s.adaptive_hold_secs ≤ t - s.hold_start_time.getD 0 ∧
        s.rep_counted_this_hold = false
    · have hstate : (s.update true t).1 = { s with rep_counted_this_hold := true } := by
        simp [AdaptiveHoldTimer.update, h1, hc]
      have hnew : (s.update true t).2.newly_counted_rep = true := by
        simp [AdaptiveHoldTimer.update, h1, hc]
      simp only [countTrueRun, hstate, hnew]
      have hz := countTrueRun_eq_zero_of_counted { s with rep_counted_this_hold := true }
        h1 rfl ts
      simp [hz]
    · have hstate : (s.update true t).1 = s := by
        simp [AdaptiveHoldTimer.update, h1, hc]
      have hnew : (s.update true t).2.newly_counted_rep = false := by
        simp [AdaptiveHoldTimer.update, h1, hc]
      simp only [countTrueRun, hstate, hnew]
      simp [ih s h1]

theorem update_preserves_floor (s : AdaptiveHoldTimer) (b : Bool) (t : ℚ)
    (h : s.initial_hold_secs ≤ s.adaptive_hold_secs) :
    ((s.update b t).1).initial_hold_secs = s.initial_hold_secs ∧
    ((s.update b t).1).initial_hold_secs ≤ ((s.update b t).1).adaptive_hold_secs := by
  cases b with
  | true =>
    by_cases h1 : s.rep_in_progress = false
    · simp [AdaptiveHoldTimer.update, h1, h]
    · by_cases hc : s.adaptive_hold_secs ≤ t - s.hold_start_time.getD 0 ∧
          s.rep_counted_this_hold = false
      · simp [AdaptiveHoldTimer.update, h1, hc, h]
      · simp [AdaptiveHoldTimer.update, h1, hc, h]
  | false =>
    by_cases h1 : s.rep_in_progress
    · refine ⟨by simp [AdaptiveHoldTimer.update, h1], ?_⟩
      simp only [AdaptiveHoldTimer.update, h1]
      simp only [Bool.false_eq_true, if_false, if_true]
      by_cases h2 : s.adaptive_hold_secs ≤ t - s.hold_start_time.getD 0
      · simp only [h2, if_true]
        have hx : (0 : ℚ) ≤ (t - s.hold_start_time.getD 0 - s.adaptive_hold_secs) * (1 / 2) := by
          have := sub_nonneg.mpr h2
          positivity
        linarith
      · simp only [h2, if_false]
        by_cases h3 : s.initial_hold_secs ≤ t - s.hold_start_time.getD 0
        · simp [h3]
        · simp [h3, h]
    · simp [AdaptiveHoldTimer.update, h1, h]

theorem runTimer_preserves_floor :
    ∀ (l : List (Bool × ℚ)) (s : AdaptiveHoldTimer),
      s.initial_hold_secs ≤ s.adaptive_hold_secs →
      (runTimer s l).initial_hold_secs = s.initial_hold_secs ∧
      (runTimer s l).initial_hold_secs ≤ (runTimer s l).adaptive_hold_secs := by
  intro l
  induction l with
  | nil => intro s h; exact ⟨rfl, h⟩
  | cons p l ih =>
    intro s h
    obtain ⟨he, hle⟩ := update_preserves_floor s p.1 p.2 h
    obtain ⟨he2, hle2⟩ := ih (s.update p.1 p.2).1 hle
    exact ⟨by rw [runTimer, he2, he], by rw [runTimer]; exact hle2⟩

/-- C1: over any update sequence, `newly_counted_rep` is true on at most one
call of each maximal contiguous run of `in_hold_pose = true` calls: a run is
maximal exactly when it starts from construction or right after an
`in_hold_pose = false` call, both of which leave `rep_in_progress = false`,
and from any such state an all-true run yields at most one counted rep,
however long it lasts and however many calls see elapsed ≥ `adaptive_hold_secs`. -/
theorem holdTimer_at_most_one_rep_per_hold :
    (∀ i : ℚ, (AdaptiveHoldTimer.init i).rep_in_progress = false) ∧
    (∀ (s : AdaptiveHoldTimer) (t : ℚ),
      ((s.update false t).1).rep_in_progress = false) ∧
    (∀ (s : AdaptiveHoldTimer) (ts : List ℚ),
      s.rep_in_progress = false → countTrueRun s ts ≤ 1) := by
  refine ⟨fun i => rfl, fun s t => ?_, fun s ts h => ?_⟩
  · by_cases h1 : s.rep_in_progress <;> simp [AdaptiveHoldTimer.update, h1]
  · cases ts with
    | nil => simp [countTrueRun]
    | cons t ts =>
      have hstate : (s.update true t).1 =
          { s with rep_in_progress := true, hold_start_time := some t,
                   rep_counted_this_hold := false } := by
        simp [AdaptiveHoldTimer.update, h]
      have hnew : (s.update true t).2.newly_counted_rep = false := by
        simp [AdaptiveHoldTimer.update, h]
      simp only [countTrueRun, hstate, hnew]
      have := countTrueRun_le_one_of_inprog
        { s with rep_in_progress := true, hold_start_time := some t,
                 rep_counted_this_hold := false } rfl ts
      simpa using this

/-- Witness for C1: a fresh timer satisfies the run-start condition and a
concrete all-true run counts at most one rep. -/
theorem holdTimer_at_most_one_rep_per_hold_witness :
    countTrueRun (AdaptiveHoldTimer.init 5) [0, 10, 20] ≤ 1 :=
  holdTimer_at_most_one_rep_per_hold.2.2 (AdaptiveHoldTimer.init 5) [0, 10, 20] rfl

/-- C10: from construction with `adaptive_hold_secs = initial_hold_secs`,
no sequence of updates ever changes `initial_hold_secs`, and
`adaptive_hold_secs` never drops below it (the downward branch assigns the
achieved duration only when it is at least `initial_hold_secs`). -/
theorem holdTimer_initial_is_floor (i : ℚ) (l : List (Bool × ℚ)) :
    (runTimer (AdaptiveHoldTimer.init i) l).initial_hold_secs = i ∧
    i ≤ (runTimer (AdaptiveHoldTimer.init i) l).adaptive_hold_secs := by
  obtain ⟨he, hle⟩ := runTimer_preserves_floor l (AdaptiveHoldTimer.init i) le_rfl
  have he2 : (runTimer (AdaptiveHoldTimer.init i) l).initial_hold_secs = i := he
  exact ⟨he2, he2.symm.trans_le hle⟩

/-- C5: ending a hold of measured duration `now - t0 ≥ adaptive_hold_secs`
via `update(false)` sets the new requirement to the old one plus half the
overshoot and returns `needs_reset = true`. -/
theorem holdTimer_upward_adjust (s : AdaptiveHoldTimer) (t0 now : ℚ)
    (h1 : s.rep_in_progress = true) (h2 : s.hold_start_time = some t0)
    (h3 : s.adaptive_hold_secs ≤ now - t0) :
    ((s.update false now).1).adaptive_hold_secs
      = s.adaptive_hold_secs + ((now - t0) - s.adaptive_hold_secs) * (1 / 2) ∧
    ((s.update false now).2).needs_reset = true := by
  constructor <;> simp [AdaptiveHoldTimer.update, h1, h2, h3]

/-- Witness for C5: a timer 5 seconds into a hold with requirement 5 is
released at 9 seconds: the requirement becomes 5 + (9 - 5)/2 = 7. -/
theorem holdTimer_upward_adjust_witness :
    ((5 : ℚ) ≤ 9 - 0) ∧
    (((⟨5, 5, true, some 0, false⟩ : AdaptiveHoldTimer).update false 9).1.adaptive_hold_secs
      = 5 + ((9 - 0) - 5) * (1 / 2) ∧
    ((⟨5, 5, true, some 0, false⟩ : AdaptiveHoldTimer).update false 9).2.needs_reset = true) :=
  ⟨by norm_num,
   holdTimer_upward_adjust ⟨5, 5, true, some 0, false⟩ 0 9 rfl rfl (by norm_num)⟩

/-- C6 (amended): `newly_counted_rep` is false on every `update(true)` call
with elapsed time below the requirement, and the "hold pose: " countdown
string is emitted on every such call EXCEPT the first call of the hold
(the branch that starts the timer returns `status_text = None`). -/
theorem holdTimer_midhold_status (s : AdaptiveHoldTimer) (now t0 : ℚ) :
    (s.rep_in_progress = false →
      (s.update true now).2.newly_counted_rep = false ∧
      (s.update true now).2.status_text = none) ∧
    (s.rep_in_progress = true → s.hold_start_time = some t0 →
      now - t0 < s.adaptive_hold_secs →
      (s.update true now).2.newly_counted_rep = false ∧
      (s.update true now).2.status_text
        = some ("hold pose: " ++ fmt2 (s.adaptive_hold_secs - (now - t0)))) := by
  constructor
  · intro h
    constructor <;> simp [AdaptiveHoldTimer.update, h]
  · intro h1 h2 h3
    have hnot : ¬ (s.adaptive_hold_secs ≤ now - t0) := not_le.mpr h3
    have hpos : 0 < s.adaptive_hold_secs - (now - t0) := sub_pos.mpr h3
    constructor <;> simp [AdaptiveHoldTimer.update, h1, h2, hnot, hpos]

/-- Witness for C6 (amended): a timer 3 seconds into a 5-second hold reports
the remaining 2 seconds and counts nothing. -/
theorem holdTimer_midhold_status_witness :
    ((3 : ℚ) - 0 < 5) ∧
    ((((⟨5, 5, true, some 0, false⟩ : AdaptiveHoldTimer).update true 3).2.newly_counted_rep
        = false) ∧
    (((⟨5, 5, true, some 0, false⟩ : AdaptiveHoldTimer).update true 3).2.status_text
        = some ("hold pose: " ++ fmt2 (5 - (3 - 0))))) :=
  ⟨by norm_num,
   (holdTimer_midhold_status ⟨5, 5, true, some 0, false⟩ 3 0).2 rfl rfl (by norm_num)⟩

/-- Counterexample for C6: on the very first `update(true)` call of a hold —
elapsed time 0, strictly less than the required 5 seconds — the source
returns `status_text = None`, not the claimed countdown string. -/
theorem holdTimer_first_call_no_status_counterexample :
    ((AdaptiveHoldTimer.init 5).update true 0).2.status_text = none ∧
    (none : Option String) ≠ some ("hold pose: " ++ fmt2 5) := by
  exact ⟨rfl, by simp⟩

/-- An all-true run whose every elapsed time stays below the (unchanged)
requirement leaves the timer state exactly as the first call set it and
counts nothing. -/
theorem feedTrue_stable (i a t0 : ℚ) :
    ∀ ts : List ℚ, (∀ t ∈ ts, t - t0 < a) →
      feedTrue ⟨i, a, true, some t0, false⟩ ts = ⟨i, a, true, some t0, false⟩ ∧
      countTrueRun ⟨i, a, true, some t0, false⟩ ts = 0 := by
  intro ts
  induction ts with
  | nil => exact fun _ => ⟨rfl, rfl⟩
  | cons t ts ih =>
    intro h
    have ht : t - t0 < a := h t (List.mem_cons_self t ts)
    have hnot : ¬ ((a : ℚ) ≤ t - t0) := not_le.mpr ht
    have hstate : ((⟨i, a, true, some t0, false⟩ : AdaptiveHoldTimer).update true t).1
        = ⟨i, a, true, some t0, false⟩ := by
      simp [AdaptiveHoldTimer.update, hnot]
    have hnew : ((⟨i, a, true, some t0, false⟩ : AdaptiveHoldTimer).update true t).2.newly_counted_rep
        = false := by
      simp [AdaptiveHoldTimer.update, hnot]
    obtain ⟨ih1, ih2⟩ := ih (fun t' ht' => h t' (List.mem_cons_of_mem t ht'))
    refine ⟨?_, ?_⟩
    · rw [feedTrue, hstate, ih1]
    · rw [countTrueRun, hstate, hnew]
      simp [ih2]

/-- C4 (amended): releasing a hold whose measured duration `tf - t0` is
below the requirement `a` never counted a rep during the hold (times not
exceeding the release time), returns `newly_counted_rep = false`, and then
`adaptive_hold_secs` becomes the achieved duration if that is at least
`initial_hold_secs` and is otherwise left unchanged — in both cases it does
not exceed its previous value. -/
theorem holdTimer_short_hold_adjust (i a t0 tf : ℚ) (o : Option ℚ) (c : Bool)
    (ts : List ℚ) (hmono : ∀ t ∈ ts, t ≤ tf) (hshort : tf - t0 < a) :
    countTrueRun ⟨i, a, false, o, c⟩ (t0 :: ts) = 0 ∧
    ((feedTrue ⟨i, a, false, o, c⟩ (t0 :: ts)).update false tf).2.newly_counted_rep = false ∧
    ((feedTrue ⟨i, a, false, o, c⟩ (t0 :: ts)).update false tf).1.adaptive_hold_secs
      = (if i ≤ tf - t0 then tf - t0 else a) ∧
    ((feedTrue ⟨i, a, false, o, c⟩ (t0 :: ts)).update false tf).1.adaptive_hold_secs ≤ a := by
  have hbound : ∀ t ∈ ts, t - t0 < a := fun t ht =>
    lt_of_le_of_lt (by linarith [hmono t ht]) hshort
  obtain ⟨hfeed, hcount⟩ := feedTrue_stable i a t0 ts hbound
  have hstart : ((⟨i, a, false, o, c⟩ : AdaptiveHoldTimer).update true t0).1
      = ⟨i, a, true, some t0, false⟩ := by
    simp [AdaptiveHoldTimer.update]
  have hstartnew : ((⟨i, a, false, o, c⟩ : AdaptiveHoldTimer).update true t0).2.newly_counted_rep
      = false := by
    simp [AdaptiveHoldTimer.update]
  have hfeedall : feedTrue ⟨i, a, false, o, c⟩ (t0 :: ts) = ⟨i, a, true, some t0, false⟩ := by
    rw [feedTrue, hstart, hfeed]
  have hnotlong : ¬ ((a : ℚ) ≤ tf - t0) := not_le.mpr hshort
  refine ⟨?_, ?_, ?_, ?_⟩
  · rw [countTrueRun, hstart, hstartnew, hcount]
    simp
  · rw [hfeedall]
    simp [AdaptiveHoldTimer.update]
  · rw [hfeedall]
    simp [AdaptiveHoldTimer.update, hnotlong]
  · rw [hfeedall]
    by_cases hfloor : (i : ℚ) ≤ tf - t0
    · simp only [AdaptiveHoldTimer.update]
      simp [hnotlong, hfloor, le_of_lt hshort]
    · simp [AdaptiveHoldTimer.update, hnotlong, hfloor]

/-- Witness for C4 (amended): requirement 7 (initial 5), hold of 3 seconds:
nothing is counted and the requirement stays 7 (3 is below the 5-second
floor), in particular not above its previous value. -/
theorem holdTimer_short_hold_adjust_witness :
    ((13 : ℚ) - 10 < 7) ∧
    (countTrueRun ⟨5, 7, false, none, false⟩ (10 :: [11]) = 0 ∧
     ((feedTrue ⟨5, 7, false, none, false⟩ (10 :: [11])).update false 13).2.newly_counted_rep
        = false ∧
     ((feedTrue ⟨5, 7, false, none, false⟩ (10 :: [11])).update false 13).1.adaptive_hold_secs
        = (if (5 : ℚ) ≤ 13 - 10 then 13 - 10 else 7) ∧
     ((feedTrue ⟨5, 7, false, none, false⟩ (10 :: [11])).update false 13).1.adaptive_hold_secs
        ≤ 7) :=
  ⟨by norm_num,
   holdTimer_short_hold_adjust 5 7 10 13 none false [11]
     (by intro t ht; simp at ht; subst ht; norm_num) (by norm_num)⟩

/-- Counterexample for C4: after an overshoot hold (held 9 s against a 5 s
requirement) the requirement is 7; a following short hold of 3 s then leaves
`adaptive_hold_secs` at 7 — not the achieved duration 3 and not the
`initial_hold_secs` floor 5, contradicting "afterward `adaptive_hold_secs`
equals the achieved duration (bounded below by a floor)". -/
theorem holdTimer_short_hold_counterexample :
    (runTimer (AdaptiveHoldTimer.init 5)
        [(true, 0), (false, 9), (true, 10), (false, 13)]).adaptive_hold_secs = 7 ∧
    (7 : ℚ) ≠ 3 ∧ (7 : ℚ) ≠ 5 := by
  refine ⟨?_, by norm_num, by norm_num⟩
  norm_num [runTimer, AdaptiveHoldTimer.update, AdaptiveHoldTimer.init]

/-! ### Helper lemmas for the pose trackers -/

theorem bridging_update_gating (lm : Bool) (s : BridgingTracker) (a : BridgingArgs) :
    (BridgingTracker.updateTracker lm s a).resting_pose = false →
    (BridgingTracker.updateTracker lm s a).raise_pose = false := by
  intro h
  by_cases h0 : s.resting_pose = false
  · cases hc : bridgingRestCond lm a
    · simp [BridgingTracker.updateTracker, h0, hc]
    · exfalso
      simp [BridgingTracker.updateTracker, h0, hc] at h
  · have h0t : s.resting_pose = true := by revert h0; cases s.resting_pose <;> simp
    exfalso
    simp [BridgingTracker.updateTracker, h0t] at h

theorem cobra_update_gating (lm : Bool) (s : CobraTracker) (a : CobraArgs) :
    (CobraTracker.updateTracker lm s a).resting_pose = false →
    (CobraTracker.updateTracker lm s a).raise_pose = false := by
  intro h
  by_cases h0 : s.resting_pose = false
  · cases hc : cobraRestCond lm a
    · simp [CobraTracker.updateTracker, h0, hc]
    · exfalso
      simp [CobraTracker.updateTracker, h0, hc] at h
  · have h0t : s.resting_pose = true := by revert h0; cases s.resting_pose <;> simp
    exfalso
    simp [CobraTracker.updateTracker, h0t] at h

theorem ankleToe_update_gating (lm : Bool) (s : AnkleToeTracker) (a : AnkleToeArgs) :
    (AnkleToeTracker.updateTracker lm s a).relax_pose = false →
    (AnkleToeTracker.updateTracker lm s a).stretch_pose = false := by
  intro h
  by_cases h0 : s.relax_pose = false
  · cases hc : ankleToeRelaxCond a
    · simp [AnkleToeTracker.updateTracker, h0, hc]
    · exfalso
      simp [AnkleToeTracker.updateTracker, h0, hc] at h
  · have h0t : s.relax_pose = true := by revert h0; cases s.relax_pose <;> simp
    exfalso
    simp [AnkleToeTracker.updateTracker, h0t] at h

theorem squeeze_update_gating (s : SqueezeTracker) (x : ℚ) :
    (s.update x).resting_pose = false → (s.update x).squeeze_pose = false := by
  intro h
  by_cases h0 : s.resting_pose = false
  · simp [SqueezeTracker.update, h0]
  · have h0t : s.resting_pose = true := by revert h0; cases s.resting_pose <;> simp
    exfalso
    simp [SqueezeTracker.update, h0t] at h

theorem proneSLR_update_gating (lm : Bool) (s : ProneSLRTracker) (a : ProneSLRArgs) :
    ((ProneSLRTracker.updateTracker lm s a).l_resting_pose = false →
      (ProneSLRTracker.updateTracker lm s a).l_raise_pose = false) ∧
    ((ProneSLRTracker.updateTracker lm s a).r_resting_pose = false →
      (ProneSLRTracker.updateTracker lm s a).r_raise_pose = false) := by
  constructor <;>
  · intro h
    simp only [ProneSLRTracker.updateTracker] at h ⊢
    split_ifs at h ⊢ <;> simp_all

theorem anySLR_update_gating (lm : Bool) (s : AnySLRTracker) (a : AnySLRArgs) :
    ((AnySLRTracker.updateTracker lm s a).l_resting_pose = false →
      (AnySLRTracker.updateTracker lm s a).l_raise_pose = false) ∧
    ((AnySLRTracker.updateTracker lm s a).r_resting_pose = false →
      (AnySLRTracker.updateTracker lm s a).r_raise_pose = false) := by
  constructor <;>
  · intro h
    simp only [AnySLRTracker.updateTracker] at h ⊢
    split_ifs at h ⊢ <;> simp_all

theorem runTrack_preserves {σ α : Type} (u : σ → α → σ) (r : σ → σ) (P : σ → Prop)
    (hu : ∀ s a, P s → P (u s a)) (hr : ∀ s, P s → P (r s)) :
    ∀ (tr : List (TrackStep α)) (s : σ), P s → P (runTrack u r s tr) := by
  intro tr
  induction tr with
  | nil => exact fun s h => h
  | cons e tr ih =>
    intro s h
    cases e with
    | upd a => exact ih (u s a) (hu s a h)
    | reset => exact ih (r s) (hr s h)

/-- C3: for every update/reset trace from construction, each tracker variant
(bridging, cobra, ankle-toe, shoulder-blade squeeze, prone straight-leg
raise and straight-leg raise) keeps its active/target flag (raise, stretch,
squeeze) false whenever its baseline/resting flag is false — per side where
sides exist. -/
theorem tracker_gating_invariant (lm : Bool) (rt sq : ℚ) :
    (∀ tr : List (TrackStep BridgingArgs),
      (runTrack (BridgingTracker.updateTracker lm) BridgingTracker.resetTracker
        BridgingTracker.init tr).resting_pose = false →
      (runTrack (BridgingTracker.updateTracker lm) BridgingTracker.resetTracker
        BridgingTracker.init tr).raise_pose = false) ∧
    (∀ tr : List (TrackStep CobraArgs),
      (runTrack (CobraTracker.updateTracker lm) CobraTracker.resetTracker
        CobraTracker.init tr).resting_pose = false →
      (runTrack (CobraTracker.updateTracker lm) CobraTracker.resetTracker
        CobraTracker.init tr).raise_pose = false) ∧
    (∀ tr : List (TrackStep AnkleToeArgs),
      (runTrack (AnkleToeTracker.updateTracker lm) AnkleToeTracker.resetTracker
        AnkleToeTracker.init tr).relax_pose = false →
      (runTrack (AnkleToeTracker.updateTracker lm) AnkleToeTracker.resetTracker
        AnkleToeTracker.init tr).stretch_pose = false) ∧
    (∀ tr : List (TrackStep ℚ),
      (runTrack SqueezeTracker.update SqueezeTracker.reset
        (SqueezeTracker.init rt sq) tr).resting_pose = false →
      (runTrack SqueezeTracker.update SqueezeTracker.reset
        (SqueezeTracker.init rt sq) tr).squeeze_pose = false) ∧
    (∀ tr : List (TrackStep ProneSLRArgs),
      (runTrack (ProneSLRTracker.updateTracker lm) ProneSLRTracker.resetTracker
        ProneSLRTracker.init tr).l_resting_pose = false →
      (runTrack (ProneSLRTracker.updateTracker lm) ProneSLRTracker.resetTracker
        ProneSLRTracker.init tr).l_raise_pose = false) ∧
    (∀ tr : List (TrackStep ProneSLRArgs),
      (runTrack (ProneSLRTracker.updateTracker lm) ProneSLRTracker.resetTracker
        ProneSLRTracker.init tr).r_resting_pose = false →
      (runTrack (ProneSLRTracker.updateTracker lm) ProneSLRTracker.resetTracker
        ProneSLRTracker.init tr).r_raise_pose = false) ∧
    (∀ tr : List (TrackStep AnySLRArgs),
      (runTrack (AnySLRTracker.updateTracker lm) AnySLRTracker.resetTracker
        AnySLRTracker.init tr).l_resting_pose = false →
      (runTrack (AnySLRTracker.updateTracker lm) AnySLRTracker.resetTracker
        AnySLRTracker.init tr).l_raise_pose = false) ∧
    (∀ tr : List (TrackStep AnySLRArgs),
      (runTrack (AnySLRTracker.updateTracker lm) AnySLRTracker.resetTracker
        AnySLRTracker.init tr).r_resting_pose = false →
      (runTrack (AnySLRTracker.updateTracker lm) AnySLRTracker.resetTracker
        AnySLRTracker.init tr).r_raise_pose = false) := by
  refine ⟨fun tr => ?_, fun tr => ?_, fun tr => ?_, fun tr => ?_, fun tr => ?_, fun tr => ?_,
    fun tr => ?_, fun tr => ?_⟩
  · exact runTrack_preserves (BridgingTracker.updateTracker lm) BridgingTracker.resetTracker
      (fun s => s.resting_pose = false → s.raise_pose = false)
      (fun s a _ => bridging_update_gating lm s a) (fun s _ _ => rfl) tr
      BridgingTracker.init (fun _ => rfl)
  · exact runTrack_preserves (CobraTracker.updateTracker lm) CobraTracker.resetTracker
      (fun s => s.resting_pose = false → s.raise_pose = false)
      (fun s a _ => cobra_update_gating lm s a) (fun s _ _ => rfl) tr
      CobraTracker.init (fun _ => rfl)
  · exact runTrack_preserves (AnkleToeTracker.updateTracker lm) AnkleToeTracker.resetTracker
      (fun s => s.relax_pose = false → s.stretch_pose = false)
      (fun s a _ => ankleToe_update_gating lm s a) (fun s _ _ => rfl) tr
      AnkleToeTracker.init (fun _ => rfl)
  · exact runTrack_preserves SqueezeTracker.update SqueezeTracker.reset
      (fun s => s.resting_pose = false → s.squeeze_pose = false)
      (fun s a _ => squeeze_update_gating s a) (fun s _ _ => rfl) tr
      (SqueezeTracker.init rt sq) (fun _ => rfl)
  · exact runTrack_preserves (ProneSLRTracker.updateTracker lm) ProneSLRTracker.resetTracker
      (fun s => s.l_resting_pose = false → s.l_raise_pose = false)
      (fun s a _ => (proneSLR_update_gating lm s a).1) (fun s _ _ => rfl) tr
      ProneSLRTracker.init (fun _ => rfl)
  · exact runTrack_preserves (ProneSLRTracker.updateTracker lm) ProneSLRTracker.resetTracker
      (fun s => s.r_resting_pose = false → s.r_raise_pose = false)
      (fun s a _ => (proneSLR_update_gating lm s a).2) (fun s _ _ => rfl) tr
      ProneSLRTracker.init (fun _ => rfl)
  · exact runTrack_preserves (AnySLRTracker.updateTracker lm) AnySLRTracker.resetTracker
      (fun s => s.l_resting_pose = false → s.l_raise_pose = false)
      (fun s a _ => (anySLR_update_gating lm s a).1) (fun s _ _ => rfl) tr
      AnySLRTracker.init (fun _ => rfl)
  · exact runTrack_preserves (AnySLRTracker.updateTracker lm) AnySLRTracker.resetTracker
      (fun s => s.r_resting_pose = false → s.r_raise_pose = false)
      (fun s a _ => (anySLR_update_gating lm s a).2) (fun s _ _ => rfl) tr
      AnySLRTracker.init (fun _ => rfl)

/-- Witness for C3: the empty trace on the bridging tracker — its resting
flag is false at construction, so its raise flag is false. -/
theorem tracker_gating_invariant_witness :
    (runTrack (BridgingTracker.updateTracker false) BridgingTracker.resetTracker
      BridgingTracker.init []).raise_pose = false :=
  (tracker_gating_invariant false 0 0).1 [] rfl

/-- C2 (amended): an update whose baseline conjunction fails leaves both
flags false only while the resting flag is still false at entry to that
update; once the resting flag has latched true, `updateTracker` never
clears it — a failing baseline conjunction (e.g. `lying_down` /
`lower_body_prone` turning false) leaves `resting_pose` true in that
update; only `resetTracker` clears it.  Stated for the two trackers the
claim cites (bridging and cobra stretch). -/
theorem tracker_baseline_latch (lm : Bool) (sb : BridgingTracker) (sc : CobraTracker)
    (ab : BridgingArgs) (ac : CobraArgs) :
    (sb.resting_pose = false → bridgingRestCond lm ab = false →
      (BridgingTracker.updateTracker lm sb ab).resting_pose = false ∧
      (BridgingTracker.updateTracker lm sb ab).raise_pose = false) ∧
    (sb.resting_pose = true →
      (BridgingTracker.updateTracker lm sb ab).resting_pose = true) ∧
    (sc.resting_pose = false → cobraRestCond lm ac = false →
      (CobraTracker.updateTracker lm sc ac).resting_pose = false ∧
      (CobraTracker.updateTracker lm sc ac).raise_pose = false) ∧
    (sc.resting_pose = true →
      (CobraTracker.updateTracker lm sc ac).resting_pose = true) := by
  refine ⟨fun h hc => ?_, fun h => ?_, fun h hc => ?_, fun h => ?_⟩
  · constructor <;> simp [BridgingTracker.updateTracker, h, hc]
  · simp [BridgingTracker.updateTracker, h]
  · constructor <;> simp [CobraTracker.updateTracker, h, hc]
  · simp [CobraTracker.updateTracker, h]

/-- Witness for C2 (amended): a freshly constructed bridging tracker fed a
frame with `lying_down = false` ends the update with both flags false. -/
theorem tracker_baseline_latch_witness :
    (BridgingTracker.init.resting_pose = false) ∧
    (bridgingRestCond false ⟨false, 50, 50, true, true, 120, 120⟩ = false) ∧
    ((BridgingTracker.updateTracker false BridgingTracker.init
        ⟨false, 50, 50, true, true, 120, 120⟩).resting_pose = false ∧
     (BridgingTracker.updateTracker false BridgingTracker.init
        ⟨false, 50, 50, true, true, 120, 120⟩).raise_pose = false) :=
  ⟨rfl, by simp [bridgingRestCond],
   (tracker_baseline_latch false BridgingTracker.init CobraTracker.init
      ⟨false, 50, 50, true, true, 120, 120⟩
      ⟨50, 50, 170, true, true, 90, true⟩).1 rfl (by simp [bridgingRestCond])⟩

/-- Counterexample for C2: the cobra tracker latches its baseline.  A first
frame establishes `resting_pose = true`; the next frame has
`lower_body_prone = false`, so the baseline conjunction is false, yet
`resting_pose` is still true after that update — not cleared as claimed. -/
theorem tracker_baseline_latch_counterexample :
    cobraRestCond false ⟨50, 50, 170, true, true, 90, false⟩ = false ∧
    (CobraTracker.updateTracker false
      (CobraTracker.updateTracker false CobraTracker.init
        ⟨50, 50, 170, true, true, 90, true⟩)
      ⟨50, 50, 170, true, true, 90, false⟩).resting_pose = true := by
  have h1 : cobraRestCond false ⟨50, 50, 170, true, true, 90, true⟩ = true := by
    norm_num [cobraRestCond]
  constructor
  · simp [cobraRestCond]
  · simp [CobraTracker.updateTracker, CobraTracker.init, h1]

/-- C9: `resetTracker` is idempotent for every tracker variant — bridging,
cobra, ankle-toe, shoulder-blade squeeze, prone straight-leg raise,
straight-leg raise and sbs2: a second consecutive reset leaves the state of
the first. -/
theorem tracker_reset_idempotent (sb : BridgingTracker) (sc : CobraTracker)
    (sa : AnkleToeTracker) (ss : SqueezeTracker) (sp : ProneSLRTracker)
    (sl : AnySLRTracker) (s2 : Sbs2Tracker) :
    BridgingTracker.resetTracker (BridgingTracker.resetTracker sb)
      = BridgingTracker.resetTracker sb ∧
    CobraTracker.resetTracker (CobraTracker.resetTracker sc)
      = CobraTracker.resetTracker sc ∧
    AnkleToeTracker.resetTracker (AnkleToeTracker.resetTracker sa)
      = AnkleToeTracker.resetTracker sa ∧
    SqueezeTracker.reset (SqueezeTracker.reset ss) = SqueezeTracker.reset ss ∧
    ProneSLRTracker.resetTracker (ProneSLRTracker.resetTracker sp)
      = ProneSLRTracker.resetTracker sp ∧
    AnySLRTracker.resetTracker (AnySLRTracker.resetTracker sl)
      = AnySLRTracker.resetTracker sl ∧
    Sbs2Tracker.resetTracker (Sbs2Tracker.resetTracker s2)
      = Sbs2Tracker.resetTracker s2 :=
  ⟨rfl, rfl, rfl, rfl, rfl, rfl, rfl⟩

/-- C7 (amended): a non-`None` input yields an output of the same length in
the same order (given the stored history has the input's length, as it
always does for the pose model's fixed-size landmark lists); the first
frame is passed through raw (visibility included), but on smoothed frames
the output visibility is the protobuf default 0 — it is NOT averaged like
the coordinates. -/
theorem smoother_shape_and_visibility (alpha : ℚ) (st : LandmarkSmoother)
    (l prev : List Landmark) :
    (st.smoothed_landmarks = none → (st.call (some l)).2 = some l) ∧
    (st.smoothed_landmarks = some prev →
      (st.call (some l)).2 = some (List.zipWith (smoothLandmark st.alpha) l prev)) ∧
    (prev.length = l.length →
      (List.zipWith (smoothLandmark st.alpha) l prev).length = l.length) ∧
    (∀ nw pv : Landmark, (smoothLandmark alpha nw pv).visibility = 0) := by
  refine ⟨fun h => ?_, fun h => ?_, fun h => ?_, fun _ _ => rfl⟩
  · simp [LandmarkSmoother.call, h]
  · simp [LandmarkSmoother.call, h]
  · simp [List.length_zipWith, h]

/-- Witness for C7 (amended): a fresh smoother passes its first
single-landmark frame through unchanged. -/
theorem smoother_shape_and_visibility_witness :
    ((LandmarkSmoother.init (1 / 2)).smoothed_landmarks = none) ∧
    (((LandmarkSmoother.init (1 / 2)).call (some [⟨1, 1, 1, 1⟩])).2
      = some [⟨1, 1, 1, 1⟩]) :=
  ⟨rfl, (smoother_shape_and_visibility (1 / 2) (LandmarkSmoother.init (1 / 2))
      [⟨1, 1, 1, 1⟩] []).1 rfl⟩

/-- Counterexample for C7: feed the landmark (1,1,1, visibility 1) twice.
The second (smoothed) output has visibility 0, while averaging the
visibility identically to the coordinates would give
`1/2 * 1 + (1 - 1/2) * 1 = 1 ≠ 0`: visibility is dropped, not carried. -/
theorem smoother_visibility_counterexample :
    (((LandmarkSmoother.init (1 / 2)).call (some [⟨1, 1, 1, 1⟩])).1.call
        (some [⟨1, 1, 1, 1⟩])).2
      = some [smoothLandmark (1 / 2) ⟨1, 1, 1, 1⟩ ⟨1, 1, 1, 1⟩] ∧
    (smoothLandmark (1 / 2) ⟨1, 1, 1, 1⟩ ⟨1, 1, 1, 1⟩).visibility = 0 ∧
    ((1 : ℚ) / 2) * 1 + (1 - 1 / 2) * 1 ≠ 0 :=
  ⟨rfl, rfl, by norm_num⟩

/-- C8: on the first call with a non-`None` list the smoother returns the
raw input unchanged (and stores it as history, not a zero-fill); on every
later call it returns `alpha * new + (1 - alpha) * prev` for each of the
x, y and z coordinates of each landmark. -/
theorem smoother_cold_start_and_formula (alpha : ℚ) (l prev : List Landmark) :
    ((LandmarkSmoother.init alpha).call (some l)).2 = some l ∧
    ((LandmarkSmoother.init alpha).call (some l)).1.smoothed_landmarks = some l ∧
    ((⟨alpha, some prev⟩ : LandmarkSmoother).call (some l)).2
      = some (List.zipWith (smoothLandmark alpha) l prev) ∧
    (∀ nw pv : Landmark,
      (smoothLandmark alpha nw pv).x = alpha * nw.x + (1 - alpha) * pv.x ∧
      (smoothLandmark alpha nw pv).y = alpha * nw.y + (1 - alpha) * pv.y ∧
      (smoothLandmark alpha nw pv).z = alpha * nw.z + (1 - alpha) * pv.z) :=
  ⟨rfl, rfl, rfl, fun _ _ => ⟨rfl, rfl, rfl⟩⟩
